import Mathlib

/-!
Shallow embedding of the service layer of the small-log repository:
`src/types.ts`, `src/services/geminiService.ts` (the `AIProviderService`
document with its two adapters) and `src/services/storageService.ts`.

Network effects are modelled by an explicit `Transport` record passed to
every operation that the source performs over `fetch` /
`ai.models.generateContent`; service results are paired with the number
of network attempts the call performed, so "fails before any network
attempt" is the statement that this counter is `0`.
-/

namespace SmallLog

/-- `AIProviderType` from `src/types.ts`. -/
inductive AIProviderType where
  | gemini
  | deepseek
deriving DecidableEq

/-- `ReportType` from `src/types.ts`. -/
inductive ReportType where
  | weekly
  | monthly
  | yearly
deriving DecidableEq

/-- `AIProviderConfig` from `src/types.ts`. -/
structure AIProviderConfig where
  type : AIProviderType
  apiKey : String
  model : String
  enabled : Bool
deriving DecidableEq

/-- The `providers` record of `AppSettings` (`src/types.ts`). -/
structure ProviderMap where
  gemini : AIProviderConfig
  deepseek : AIProviderConfig
deriving DecidableEq

/-- `AppSettings` from `src/types.ts`. -/
structure AppSettings where
  activeProvider : AIProviderType
  providers : ProviderMap
  language : String
  autoAnalyze : Bool
deriving DecidableEq

/-- Indexing `providers[activeProvider]` as done by the service. -/
def ProviderMap.get (p : ProviderMap) : AIProviderType → AIProviderConfig
  | .gemini => p.gemini
  | .deepseek => p.deepseek

/-- `DEFAULT_SETTINGS` from `src/types.ts`. -/
def DEFAULT_SETTINGS : AppSettings :=
  { activeProvider := .deepseek
    providers :=
      { gemini := { type := .gemini, apiKey := "", model := "gemini-2.0-flash", enabled := false }
        deepseek := { type := .deepseek, apiKey := "", model := "deepseek-chat", enabled := true } }
    language := "zh"
    autoAnalyze := false }

/-- The optional `aiAnalysis` payload of an `Entry` (`src/types.ts`). -/
structure AIAnalysisInfo where
  suggestions : Option (List String)
  keywords : Option (List String)
deriving DecidableEq

/-- `Entry` from `src/types.ts`. -/
structure Entry where
  id : String
  title : String
  content : String
  date : String
  updatedAt : String
  tags : List String
  sentiment : Option String
  sentimentScore : Option Int
  summary : Option String
  mood : Option String
  aiAnalysis : Option AIAnalysisInfo
deriving DecidableEq

/-- `AnalysisResult` from `src/types.ts`. -/
structure AnalysisResult where
  sentiment : String
  sentimentScore : Int
  summary : String
  tags : List String
  mood : String
  suggestions : List String
deriving DecidableEq

/-- `Report` from `src/types.ts`. -/
structure Report where
  id : String
  type : ReportType
  title : String
  content : String
  startDate : String
  endDate : String
  createdAt : String
  entryCount : Nat
deriving DecidableEq

/-! ## Transport model -/

/-- The observable part of a `fetch` response as `DeepSeekAdapter.chat`
reads it: `response.status` (with `response.ok ⇔ 200 ≤ status < 300`),
the `error.error?.message` field of the parsed error body (`none` when
the body fails to parse or the field is absent), and
`data.choices[0]?.message?.content` (`none` when absent). -/
structure HttpResponse where
  status : Nat
  errorMessage : Option String
  content : Option String
deriving DecidableEq

/-- `response.ok` of the Fetch API: status in the 2xx range. -/
def httpOk (status : Nat) : Bool :=
  decide (200 ≤ status) && decide (status < 300)

/-- JavaScript `x || d` on a possibly-undefined string `x`: the default is
used when `x` is `undefined` or the empty string (falsy). -/
def jsOrElse (x : Option String) (d : String) : String :=
  match x with
  | some s => if s = "" then d else s
  | none => d

/-- The request payload `DeepSeekAdapter.chat` sends to
`POST {baseUrl}/chat/completions`. -/
structure DeepSeekRequest where
  apiKey : String
  model : String
  systemContent : String
  userContent : String
  jsonMode : Bool
deriving DecidableEq

/-- The request payload passed to `ai.models.generateContent` by the
Gemini adapter (and by the probe of `validateApiKey`, which has no
`systemInstruction`). `structured` records whether a JSON response schema
was configured. -/
structure GeminiRequest where
  apiKey : String
  model : String
  contents : String
  systemInstruction : Option String
  structured : Bool
deriving DecidableEq

/-- The external world: `chatCompletions` is the `fetch` of the DeepSeek
endpoint (an `Except.error` is a thrown network failure), and
`generateContent` is the Gemini SDK call, whose success carries the
optional `response.text`. -/
structure Transport where
  chatCompletions : DeepSeekRequest → Except String HttpResponse
  generateContent : GeminiRequest → Except String (Option String)

/-! ## Prompt constants (`src/services/geminiService.ts`) -/

/-- `ANALYSIS_PROMPT`. -/
def ANALYSIS_PROMPT : String :=
  "Analyze the following diary entry. Provide sentiment analysis, a brief summary, extract relevant tags, identify the mood (as an emoji), and offer 1-2 writing suggestions or reflective questions.\n\nEntry:\n"

/-- `SYSTEM_INSTRUCTION_ANALYSIS`. -/
def SYSTEM_INSTRUCTION_ANALYSIS : String :=
  "You are an empathetic, insightful personal diary assistant. Your goal is to help the user organize their thoughts and gain insights. Always respond in Chinese."

/-- `SYSTEM_INSTRUCTION_REPORT`. -/
def SYSTEM_INSTRUCTION_REPORT : String :=
  "You are a professional life coach and analyst. Provide a warm, encouraging, but analytical summary. Always respond in Chinese."

/-- An entry of the `REPORT_PROMPTS` record. -/
structure ReportPromptInfo where
  title : String
  prompt : String
deriving DecidableEq

/-- `REPORT_PROMPTS` from `src/services/geminiService.ts`. -/
def REPORT_PROMPTS : ReportType → ReportPromptInfo
  | .weekly =>
    { title := "周报"
      prompt := "Generate a weekly summary report based on the following diary entries. \nIdentify recurring themes, emotional trends, and key events.\nProvide actionable insights and encouragement.\nFormat in Markdown with sections: \n- 📊 本周概览 (Overview)\n- 💭 情绪趋势 (Emotional Trends)\n- 🎯 主要话题 (Key Topics)\n- 💡 洞察与建议 (Insights & Suggestions)\n- ✨ 下周展望 (Looking Ahead)" }
  | .monthly =>
    { title := "月报"
      prompt := "Generate a monthly summary report based on the following diary entries.\nAnalyze the overall emotional journey, identify patterns and growth areas.\nFormat in Markdown with sections:\n- 📅 本月回顾 (Monthly Overview)\n- 📈 情绪变化曲线 (Emotional Journey)\n- 🏆 本月成就 (Achievements)\n- 🔄 反复出现的主题 (Recurring Themes)\n- 🌱 成长与变化 (Growth & Changes)\n- 💪 下月目标建议 (Goals for Next Month)" }
  | .yearly =>
    { title := "年度报告"
      prompt := "Generate a comprehensive yearly review based on the following diary entries.\nThis is a deep reflection on the entire year's journey.\nFormat in Markdown with sections:\n- 🎊 年度总结 (Year in Review)\n- 📊 情绪全景图 (Emotional Landscape)\n- ⭐ 年度高光时刻 (Highlights of the Year)\n- 🎓 学到的人生经验 (Life Lessons Learned)\n- 🔮 个人成长轨迹 (Personal Growth Trajectory)\n- 💫 新年寄语 (Message for the New Year)" }

/-- The JSON-mode suffix `DeepSeekAdapter.chat` appends to the system
message when `jsonMode` is true. -/
def dsJsonSuffix : String := "\n\nYou must respond with valid JSON only."

/-- The JSON shape instructions `DeepSeekAdapter.analyzeEntry` appends
after the entry text. -/
def dsAnalysisJsonSpec : String :=
  "\n\nPlease respond with a JSON object containing:\n- sentiment: \"positive\", \"neutral\", or \"negative\"\n- sentimentScore: number from 0 to 100\n- summary: brief summary in Chinese (max 2 sentences)\n- tags: array of relevant tags in Chinese\n- mood: a single emoji\n- suggestions: array of 1-2 suggestions or questions in Chinese"

/-! ## DeepSeek adapter -/

/-- The request `DeepSeekAdapter.chat` builds: the system message gets
the JSON-mode suffix appended exactly when `jsonMode` is set. -/
def dsChatRequest (apiKey model systemPrompt userPrompt : String) (jsonMode : Bool) : DeepSeekRequest :=
  { apiKey := apiKey
    model := model
    systemContent := systemPrompt ++ (if jsonMode then dsJsonSuffix else "")
    userContent := userPrompt
    jsonMode := jsonMode }

/-- The error text `DeepSeekAdapter.chat` throws on a non-ok status:
`DeepSeek API Error: {response.status} - {error message, defaulting to Unknown error}`. -/
def dsErrorText (resp : HttpResponse) : String :=
  "DeepSeek API Error: " ++ toString resp.status ++ " - " ++
    jsOrElse resp.errorMessage "Unknown error"

/-- The tail of `DeepSeekAdapter.chat` after the `fetch` resolves: on a
non-ok status it throws the `dsErrorText` message; on success it returns
`data.choices[0]?.message?.content || ''`. -/
def deepSeekChatResult (outcome : Except String HttpResponse) : Except String String :=
  match outcome with
  | .error e => .error e
  | .ok resp =>
    if httpOk resp.status then
      .ok (jsOrElse resp.content "")
    else
      .error (dsErrorText resp)

/-- `DeepSeekAdapter.chat` (lines 193-214): always performs exactly one
`fetch` attempt. -/
def DeepSeekAdapter.chat (t : Transport) (apiKey model systemPrompt userPrompt : String)
    (jsonMode : Bool) : Except String String × Nat :=
  (deepSeekChatResult (t.chatCompletions (dsChatRequest apiKey model systemPrompt userPrompt jsonMode)), 1)

/-- `DeepSeekAdapter.analyzeEntry` (lines 216-229): one JSON-mode chat
call, then `JSON.parse` of the returned string, modelled by the abstract
`parse` argument. -/
def DeepSeekAdapter.analyzeEntry (t : Transport) (parse : String → Except String AnalysisResult)
    (apiKey model text : String) : Except String AnalysisResult × Nat :=
  match DeepSeekAdapter.chat t apiKey model SYSTEM_INSTRUCTION_ANALYSIS
      (ANALYSIS_PROMPT ++ text ++ dsAnalysisJsonSpec) true with
  | (.error e, n) => (.error e, n)
  | (.ok s, n) => (parse s, n)

/-- JavaScript `s.split('T')[0]`: the prefix of `s` before its first
`T`, or all of `s` when it contains none. -/
def datePart (s : String) : String :=
  String.mk (s.data.takeWhile fun c => c != 'T')

/-- The entry serialization both adapters build (`geminiService.ts`
lines 234-236 and 274-276, textually identical in the source):
`日期: {e.date.split('T')[0]}\n标题: {e.title}\n内容: {e.content}` blocks
joined by `\n---\n`. -/
def reportContext (entries : List Entry) : String :=
  String.intercalate "\n---\n"
    (entries.map fun e =>
      "日期: " ++ datePart e.date ++ "\n标题: " ++ e.title ++ "\n内容: " ++ e.content)

/-- The full report prompt both adapters send:
`{REPORT_PROMPTS[reportType].prompt}\n\n日记条目:\n{context}`. -/
def reportFullPrompt (entries : List Entry) (rt : ReportType) : String :=
  (REPORT_PROMPTS rt).prompt ++ "\n\n日记条目:\n" ++ reportContext entries

/-- `DeepSeekAdapter.generateReport` (lines 231-242): empty entries short
circuit to the fixed string with no network attempt; otherwise one chat
call with the serialized context. -/
def DeepSeekAdapter.generateReport (t : Transport) (apiKey model : String)
    (entries : List Entry) (rt : ReportType) : Except String String × Nat :=
  if entries.isEmpty then (.ok "没有可分析的日记条目。", 0)
  else DeepSeekAdapter.chat t apiKey model SYSTEM_INSTRUCTION_REPORT (reportFullPrompt entries rt) false

/-! ## Gemini adapter -/

/-- `GeminiAdapter.analyzeEntry` (lines 255-268): one structured
`generateContent` call; a falsy `response.text` throws
"No response from Gemini AI", otherwise the text is `JSON.parse`d. -/
def GeminiAdapter.analyzeEntry (t : Transport) (parse : String → Except String AnalysisResult)
    (apiKey model text : String) : Except String AnalysisResult × Nat :=
  match t.generateContent
      { apiKey := apiKey, model := model, contents := ANALYSIS_PROMPT ++ text
        systemInstruction := some SYSTEM_INSTRUCTION_ANALYSIS, structured := true } with
  | .error e => (.error e, 1)
  | .ok none => (.error "No response from Gemini AI", 1)
  | .ok (some s) => (if s = "" then .error "No response from Gemini AI" else parse s, 1)

/-- `GeminiAdapter.generateReport` (lines 270-289): empty entries short
circuit to the fixed string with no network attempt; otherwise one
`generateContent` call, with `response.text || "无法生成报告。"` on success. -/
def GeminiAdapter.generateReport (t : Transport) (apiKey model : String)
    (entries : List Entry) (rt : ReportType) : Except String String × Nat :=
  if entries.isEmpty then (.ok "没有可分析的日记条目。", 0)
  else
    match t.generateContent
        { apiKey := apiKey, model := model, contents := reportFullPrompt entries rt
          systemInstruction := some SYSTEM_INSTRUCTION_REPORT, structured := false } with
    | .error e => (.error e, 1)
    | .ok txt => (.ok (jsOrElse txt "无法生成报告。"), 1)

/-! ## AIProviderService -/

/-- `activeProvider.toUpperCase()` as used in the error messages of the
service. -/
def providerLabel : AIProviderType → String
  | .gemini => "GEMINI"
  | .deepseek => "DEEPSEEK"

/-- `AIProviderService.analyzeEntry` (lines 293-317): the key-presence
check (`!providerConfig.apiKey`, i.e. the key is the empty string) runs
first, then the enabled check, then the adapter chosen from
`activeProvider` runs; the `try/catch` only logs and rethrows. -/
def AIProviderService.analyzeEntry (t : Transport) (parse : String → Except String AnalysisResult)
    (text : String) (settings : AppSettings) : Except String AnalysisResult × Nat :=
  let providerConfig := settings.providers.get settings.activeProvider
  if providerConfig.apiKey = "" then
    (.error ("请先配置 " ++ providerLabel settings.activeProvider ++ " 的 API Key"), 0)
  else if providerConfig.enabled = false then
    (.error (providerLabel settings.activeProvider ++ " 提供商未启用"), 0)
  else
    match settings.activeProvider with
    | .deepseek => DeepSeekAdapter.analyzeEntry t parse providerConfig.apiKey providerConfig.model text
    | .gemini => GeminiAdapter.analyzeEntry t parse providerConfig.apiKey providerConfig.model text

/-- `AIProviderService.generateReport` (lines 319-343): same precondition
checks, then `generateReport` of the chosen adapter. -/
def AIProviderService.generateReport (t : Transport) (entries : List Entry) (rt : ReportType)
    (settings : AppSettings) : Except String String × Nat :=
  let providerConfig := settings.providers.get settings.activeProvider
  if providerConfig.apiKey = "" then
    (.error ("请先配置 " ++ providerLabel settings.activeProvider ++ " 的 API Key"), 0)
  else if providerConfig.enabled = false then
    (.error (providerLabel settings.activeProvider ++ " 提供商未启用"), 0)
  else
    match settings.activeProvider with
    | .deepseek => DeepSeekAdapter.generateReport t providerConfig.apiKey providerConfig.model entries rt
    | .gemini => GeminiAdapter.generateReport t providerConfig.apiKey providerConfig.model entries rt

/-- `AIProviderService.getModels` (lines 346-353). -/
def AIProviderService.getModels : AIProviderType → List String
  | .deepseek => ["deepseek-chat", "deepseek-reasoner"]
  | .gemini => ["gemini-2.0-flash", "gemini-2.0-flash-lite", "gemini-1.5-pro"]

/-- `AIProviderService.validateApiKey` (lines 356-373): probes the
provider and converts any thrown error into `false`, any normal
completion into `true`; it is a total boolean function (it never
throws). -/
def AIProviderService.validateApiKey (t : Transport) (provider : AIProviderType)
    (apiKey : String) : Bool :=
  match provider with
  | .deepseek =>
    match (DeepSeekAdapter.chat t apiKey "deepseek-chat" "You are a test assistant."
        "Say \"OK\" if you can hear me." false).1 with
    | .ok _ => true
    | .error _ => false
  | .gemini =>
    match t.generateContent
        { apiKey := apiKey, model := "gemini-2.0-flash", contents := "Say \"OK\""
          systemInstruction := none, structured := false } with
    | .ok _ => true
    | .error _ => false

/-- `AIProviderService.getReportTypeInfo` (lines 375-377). -/
def AIProviderService.getReportTypeInfo (rt : ReportType) : ReportPromptInfo :=
  REPORT_PROMPTS rt

/-! ## Storage service (`src/services/storageService.ts`) -/

/-- A provider config as it may sit in persisted JSON: any field may be
absent. -/
structure StoredProviderConfig where
  type : Option AIProviderType
  apiKey : Option String
  model : Option String
  enabled : Option Bool
deriving DecidableEq

/-- The persisted `providers` object: either provider entry may be
absent. -/
structure StoredProviders where
  gemini : Option StoredProviderConfig
  deepseek : Option StoredProviderConfig
deriving DecidableEq

/-- Persisted settings JSON: any top-level field may be absent. -/
structure StoredSettings where
  activeProvider : Option AIProviderType
  providers : Option StoredProviders
  language : Option String
  autoAnalyze : Option Bool
deriving DecidableEq

/-- The value `loadSettings` actually returns: the two spread levels make
the top-level fields and the two provider entries always defined, but a
provider entry taken from storage keeps whatever (possibly absent) fields
it had. -/
structure LoadedSettings where
  activeProvider : AIProviderType
  gemini : StoredProviderConfig
  deepseek : StoredProviderConfig
  language : String
  autoAnalyze : Bool
deriving DecidableEq

/-- View of a fully-defined `AIProviderConfig` as a stored one (every
field present), used for the defaults in the merge. -/
def toStoredConfig (c : AIProviderConfig) : StoredProviderConfig :=
  { type := some c.type, apiKey := some c.apiKey, model := some c.model, enabled := some c.enabled }

/-- `StorageService.loadSettings` (lines 76-89):
`{...DEFAULT_SETTINGS, ...parsed, providers: {...DEFAULT_SETTINGS.providers, ...parsed.providers}}`
with JavaScript spread semantics (a present stored property overrides the
default wholesale); `none` stands for no stored value or a parse
failure, both of which return the defaults. -/
def StorageService.loadSettings (stored : Option StoredSettings) : LoadedSettings :=
  match stored with
  | none =>
    { activeProvider := DEFAULT_SETTINGS.activeProvider
      gemini := toStoredConfig DEFAULT_SETTINGS.providers.gemini
      deepseek := toStoredConfig DEFAULT_SETTINGS.providers.deepseek
      language := DEFAULT_SETTINGS.language
      autoAnalyze := DEFAULT_SETTINGS.autoAnalyze }
  | some parsed =>
    let storedProv := parsed.providers.getD { gemini := none, deepseek := none }
    { activeProvider := parsed.activeProvider.getD DEFAULT_SETTINGS.activeProvider
      gemini := storedProv.gemini.getD (toStoredConfig DEFAULT_SETTINGS.providers.gemini)
      deepseek := storedProv.deepseek.getD (toStoredConfig DEFAULT_SETTINGS.providers.deepseek)
      language := parsed.language.getD DEFAULT_SETTINGS.language
      autoAnalyze := parsed.autoAnalyze.getD DEFAULT_SETTINGS.autoAnalyze }

/-- Whether every field of a loaded provider config is defined. -/
def StoredProviderConfig.allDefinedB (c : StoredProviderConfig) : Bool :=
  c.type.isSome && c.apiKey.isSome && c.model.isSome && c.enabled.isSome

/-- `StorageService.saveReport` (lines 106-112) acting on the persisted
report list: `unshift` then `slice(0, 50)`. -/
def StorageService.saveReport (stored : List Report) (r : Report) : List Report :=
  List.take 50 (r :: stored)

/-! ## Concrete objects used to exercise the embedding -/

/-- A transport whose every call throws a network failure. -/
def failTransport : Transport :=
  { chatCompletions := fun _ => .error "network unreachable"
    generateContent := fun _ => .error "network unreachable" }

/-- A transport that always succeeds but carries no content. -/
def noContentTransport : Transport :=
  { chatCompletions := fun _ => .ok { status := 200, errorMessage := none, content := none }
    generateContent := fun _ => .ok none }

/-- A `JSON.parse` stand-in that rejects every string. -/
def parseStub : String → Except String AnalysisResult := fun _ => .error "parse failure"

/-- A concrete diary entry. -/
def sampleEntry : Entry :=
  { id := "e1", title := "标题A", content := "内容A", date := "2024-01-02T08:00:00.000Z"
    updatedAt := "2024-01-02T08:00:00.000Z", tags := [], sentiment := none
    sentimentScore := none, summary := none, mood := none, aiAnalysis := none }

/-- Settings whose active DeepSeek provider is enabled but has a
whitespace-only API key. -/
def wsKeySettings : AppSettings :=
  { activeProvider := .deepseek
    providers :=
      { gemini := { type := .gemini, apiKey := "", model := "gemini-2.0-flash", enabled := false }
        deepseek := { type := .deepseek, apiKey := " ", model := "deepseek-chat", enabled := true } }
    language := "zh"
    autoAnalyze := false }

/-- Settings whose active DeepSeek provider is enabled with a non-empty
API key. -/
def okKeySettings : AppSettings :=
  { activeProvider := .deepseek
    providers :=
      { gemini := { type := .gemini, apiKey := "", model := "gemini-2.0-flash", enabled := false }
        deepseek := { type := .deepseek, apiKey := "sk-test", model := "deepseek-chat", enabled := true } }
    language := "zh"
    autoAnalyze := false }

/-- Settings whose active DeepSeek provider has an empty key and is also
disabled: both preconditions are violated at once. -/
def emptyKeyDisabledSettings : AppSettings :=
  { activeProvider := .deepseek
    providers :=
      { gemini := { type := .gemini, apiKey := "", model := "gemini-2.0-flash", enabled := false }
        deepseek := { type := .deepseek, apiKey := "", model := "deepseek-chat", enabled := false } }
    language := "zh"
    autoAnalyze := false }

/-! ## Theorems -/

/-- C8: `getModels("deepseek")` is exactly
`["deepseek-chat","deepseek-reasoner"]` and `getModels("gemini")` is
exactly `["gemini-2.0-flash","gemini-2.0-flash-lite","gemini-1.5-pro"]`,
in those orders; the lookup is total with no error path. -/
theorem getModels_exact :
    AIProviderService.getModels .deepseek = ["deepseek-chat", "deepseek-reasoner"] ∧
    AIProviderService.getModels .gemini =
      ["gemini-2.0-flash", "gemini-2.0-flash-lite", "gemini-1.5-pro"] :=
  ⟨rfl, rfl⟩

/-- C10: `saveReport` prepends the new report and truncates to the first
50 elements, so the persisted list holds at most 50 reports with the most
recently saved one first. -/
theorem saveReport_bounded_front (stored : List Report) (r : Report) :
    StorageService.saveReport stored r = (r :: stored).take 50 ∧
    (StorageService.saveReport stored r).length ≤ 50 ∧
    (StorageService.saveReport stored r).head? = some r := by
  refine ⟨rfl, ?_, ?_⟩
  · exact List.length_take_le 50 (r :: stored)
  · rfl

/-- C2: with a valid enabled active provider, `generateReport` on an
empty entries list returns the fixed "nothing to analyze" string with
zero network attempts, whichever adapter the settings select. -/
theorem generateReport_empty_entries (t : Transport) (rt : ReportType) (settings : AppSettings)
    (hk : (settings.providers.get settings.activeProvider).apiKey ≠ "")
    (he : (settings.providers.get settings.activeProvider).enabled = true) :
    AIProviderService.generateReport t [] rt settings = (.ok "没有可分析的日记条目。", 0) := by
  rcases settings with ⟨ap, provs, lang, aa⟩
  cases ap <;>
    simp_all [AIProviderService.generateReport, ProviderMap.get,
      DeepSeekAdapter.generateReport, GeminiAdapter.generateReport]

/-- Witness for C2 at concrete enabled DeepSeek settings. -/
theorem generateReport_empty_entries_witness :
    (okKeySettings.providers.get okKeySettings.activeProvider).apiKey ≠ "" ∧
    (okKeySettings.providers.get okKeySettings.activeProvider).enabled = true ∧
    AIProviderService.generateReport failTransport [] .weekly okKeySettings =
      (.ok "没有可分析的日记条目。", 0) :=
  ⟨by decide, by decide,
    generateReport_empty_entries failTransport .weekly okKeySettings (by decide) (by decide)⟩

/-- C1 counterexample: with a whitespace-only API key (`" "`, truthy in
JavaScript) and the provider enabled, `analyzeEntry` does not fail with a
configuration error before a network attempt: it performs one network
attempt and surfaces the failure of the transport. -/
theorem analyzeEntry_whitespace_key_reaches_network :
    (AIProviderService.analyzeEntry failTransport parseStub "hello" wsKeySettings).2 = 1 ∧
    (AIProviderService.analyzeEntry failTransport parseStub "hello" wsKeySettings).1 =
      .error "network unreachable" :=
  ⟨rfl, rfl⟩

/-- C1 (amended): whenever the `apiKey` of the active provider is the empty
string, `analyzeEntry` and `generateReport` fail with the "configure API
key" message and zero network attempts — also when `enabled` is false at
the same time, the key check being first; whenever the key is non-empty
but `enabled` is false, both fail with the "provider not enabled" message
and zero network attempts. -/
theorem precondition_checks_before_network (t : Transport)
    (parse : String → Except String AnalysisResult) (text : String) (entries : List Entry)
    (rt : ReportType) (settings : AppSettings) :
    ((settings.providers.get settings.activeProvider).apiKey = "" →
      AIProviderService.analyzeEntry t parse text settings =
        (.error ("请先配置 " ++ providerLabel settings.activeProvider ++ " 的 API Key"), 0) ∧
      AIProviderService.generateReport t entries rt settings =
        (.error ("请先配置 " ++ providerLabel settings.activeProvider ++ " 的 API Key"), 0)) ∧
    ((settings.providers.get settings.activeProvider).apiKey ≠ "" →
      (settings.providers.get settings.activeProvider).enabled = false →
      AIProviderService.analyzeEntry t parse text settings =
        (.error (providerLabel settings.activeProvider ++ " 提供商未启用"), 0) ∧
      AIProviderService.generateReport t entries rt settings =
        (.error (providerLabel settings.activeProvider ++ " 提供商未启用"), 0)) := by
  rcases settings with ⟨ap, provs, lang, aa⟩
  constructor
  · intro hk
    cases ap <;>
      simp_all [AIProviderService.analyzeEntry, AIProviderService.generateReport, ProviderMap.get]
  · intro hk he
    cases ap <;>
      simp_all [AIProviderService.analyzeEntry, AIProviderService.generateReport, ProviderMap.get]

/-- Witness for C1 (amended): with an empty key and the provider also
disabled, the missing-key error is the one raised, with zero network
attempts. -/
theorem precondition_checks_before_network_witness :
    (emptyKeyDisabledSettings.providers.get emptyKeyDisabledSettings.activeProvider).apiKey = "" ∧
    AIProviderService.analyzeEntry failTransport parseStub "hi" emptyKeyDisabledSettings =
      (.error ("请先配置 " ++ providerLabel emptyKeyDisabledSettings.activeProvider ++ " 的 API Key"), 0) ∧
    AIProviderService.generateReport failTransport [sampleEntry] .weekly emptyKeyDisabledSettings =
      (.error ("请先配置 " ++ providerLabel emptyKeyDisabledSettings.activeProvider ++ " 的 API Key"), 0) :=
  ⟨rfl,
    (precondition_checks_before_network failTransport parseStub "hi" [sampleEntry] .weekly
      emptyKeyDisabledSettings).1 rfl⟩

/-- The entry block as the specification sentence words it —
`Date: <iso-date>\nTitle: <title>\nContent: <content>` — kept only for
comparison against `reportContext`, which is what the adapters build. -/
def specEntryBlock (e : Entry) : String :=
  "Date: " ++ datePart e.date ++ "\nTitle: " ++ e.title ++ "\nContent: " ++ e.content

/-- C3 counterexample: the serialized block for a concrete entry is not
the `Date:/Title:/Content:` form the claim states; the adapters build
`日期:/标题:/内容:` blocks. -/
theorem reportContext_not_english_labels :
    reportContext [sampleEntry] ≠ specEntryBlock sampleEntry ∧
    reportContext [sampleEntry] = "日期: 2024-01-02\n标题: 标题A\n内容: 内容A" := by
  constructor
  · decide
  · decide

/-- C3 (amended): for non-empty entries both adapters serialize each
entry as a `日期: <iso-date>\n标题: <title>\n内容: <content>` block (the
date being the portion of the ISO string of the entry before `T`), join the
blocks with the fixed `\n---\n` separator, and send the result appended
to the report prompt. -/
theorem report_serialization (t : Transport) (k m : String) (entries : List Entry)
    (rt : ReportType) (hne : entries ≠ []) :
    reportContext entries =
      String.intercalate "\n---\n"
        (entries.map fun e =>
          "日期: " ++ datePart e.date ++ "\n标题: " ++ e.title ++
            "\n内容: " ++ e.content) ∧
    DeepSeekAdapter.generateReport t k m entries rt =
      DeepSeekAdapter.chat t k m SYSTEM_INSTRUCTION_REPORT
        ((REPORT_PROMPTS rt).prompt ++ "\n\n日记条目:\n" ++ reportContext entries) false ∧
    GeminiAdapter.generateReport t k m entries rt =
      (match t.generateContent
          { apiKey := k, model := m
            contents := (REPORT_PROMPTS rt).prompt ++ "\n\n日记条目:\n" ++ reportContext entries
            systemInstruction := some SYSTEM_INSTRUCTION_REPORT, structured := false } with
       | .error e => (.error e, 1)
       | .ok txt => (.ok (jsOrElse txt "无法生成报告。"), 1)) := by
  have hne' : entries.isEmpty = false := by
    cases entries with
    | nil => exact absurd rfl hne
    | cons a as => rfl
  refine ⟨rfl, ?_, ?_⟩
  · simp [DeepSeekAdapter.generateReport, hne', reportFullPrompt]
  · simp [GeminiAdapter.generateReport, hne', reportFullPrompt]

/-- Witness for C3 (amended) at a concrete entry list. -/
theorem report_serialization_witness :
    ([sampleEntry] : List Entry) ≠ [] ∧
    DeepSeekAdapter.generateReport failTransport "k" "m" [sampleEntry] .weekly =
      DeepSeekAdapter.chat failTransport "k" "m" SYSTEM_INSTRUCTION_REPORT
        ((REPORT_PROMPTS .weekly).prompt ++ "\n\n日记条目:\n" ++ reportContext [sampleEntry]) false :=
  ⟨by simp,
    (report_serialization failTransport "k" "m" [sampleEntry] .weekly (by simp)).2.1⟩

/-- C5: on any non-2xx response, the DeepSeek chat call fails with an
error whose text embeds the HTTP status and the vendor message when the
error body provides one, else "Unknown error". -/
theorem deepseek_chat_error_text (resp : HttpResponse) (h : httpOk resp.status = false) :
    deepSeekChatResult (.ok resp) = .error (dsErrorText resp) ∧
    (toString resp.status).toList <:+: (dsErrorText resp).toList ∧
    (jsOrElse resp.errorMessage "Unknown error").toList <:+: (dsErrorText resp).toList := by
  refine ⟨?_, ?_, ?_⟩
  · simp [deepSeekChatResult, h]
  · refine ⟨("DeepSeek API Error: ").toList,
      (" - " ++ jsOrElse resp.errorMessage "Unknown error").toList, ?_⟩
    simp [dsErrorText, String.toList, List.append_assoc]
  · refine ⟨("DeepSeek API Error: " ++ toString resp.status ++ " - ").toList, [], ?_⟩
    simp [dsErrorText, String.toList, List.append_assoc]

/-- Witness for C5: the specification scenario, HTTP 500 with vendor message
"server overloaded", produces exactly
"DeepSeek API Error: 500 - server overloaded". -/
theorem deepseek_chat_error_text_witness :
    httpOk 500 = false ∧
    (deepSeekChatResult (.ok { status := 500, errorMessage := some "server overloaded", content := none }) =
        .error (dsErrorText { status := 500, errorMessage := some "server overloaded", content := none }) ∧
      (toString (500 : Nat)).toList <:+:
        (dsErrorText { status := 500, errorMessage := some "server overloaded", content := none }).toList ∧
      (jsOrElse (some "server overloaded") "Unknown error").toList <:+:
        (dsErrorText { status := 500, errorMessage := some "server overloaded", content := none }).toList) ∧
    dsErrorText { status := 500, errorMessage := some "server overloaded", content := none } =
      "DeepSeek API Error: 500 - server overloaded" :=
  ⟨by decide,
    deepseek_chat_error_text { status := 500, errorMessage := some "server overloaded", content := none }
      (by decide),
    by decide⟩

/-- C6: for a non-empty report request whose provider response carries no
content, the Gemini adapter returns the fixed placeholder "无法生成报告。"
as a successful result, and the DeepSeek adapter returns the empty string
its chat primitive produces for an absent completion content field — in
both cases a success, not an error. -/
theorem report_no_content_fallback (t : Transport) (k m : String) (entries : List Entry)
    (rt : ReportType) (hne : entries ≠ []) :
    (t.generateContent
        { apiKey := k, model := m, contents := reportFullPrompt entries rt
          systemInstruction := some SYSTEM_INSTRUCTION_REPORT, structured := false } = .ok none →
      GeminiAdapter.generateReport t k m entries rt = (.ok "无法生成报告。", 1)) ∧
    (∀ resp,
      t.chatCompletions
          (dsChatRequest k m SYSTEM_INSTRUCTION_REPORT (reportFullPrompt entries rt) false) =
        .ok resp →
      httpOk resp.status = true → resp.content = none →
      DeepSeekAdapter.generateReport t k m entries rt = (.ok "", 1)) := by
  have hne' : entries.isEmpty = false := by
    cases entries with
    | nil => exact absurd rfl hne
    | cons a as => rfl
  constructor
  · intro hgc
    simp [GeminiAdapter.generateReport, hne', hgc, jsOrElse]
  · intro resp hcc hok hct
    simp [DeepSeekAdapter.generateReport, DeepSeekAdapter.chat, hne', hcc,
      deepSeekChatResult, hok, hct, jsOrElse]

/-- Witness for C6 with a transport that succeeds without content. -/
theorem report_no_content_fallback_witness :
    ([sampleEntry] : List Entry) ≠ [] ∧
    GeminiAdapter.generateReport noContentTransport "k" "m" [sampleEntry] .monthly =
      (.ok "无法生成报告。", 1) ∧
    DeepSeekAdapter.generateReport noContentTransport "k" "m" [sampleEntry] .monthly =
      (.ok "", 1) :=
  ⟨by simp,
    (report_no_content_fallback noContentTransport "k" "m" [sampleEntry] .monthly (by simp)).1 rfl,
    (report_no_content_fallback noContentTransport "k" "m" [sampleEntry] .monthly (by simp)).2
      { status := 200, errorMessage := none, content := none } rfl rfl rfl⟩

/-- C4: `validateApiKey` is a total boolean probe for both providers and
every API key: it returns `false` exactly when the probe throws (network
failure, or a non-2xx status surfaced by the DeepSeek chat primitive, or
a Gemini SDK error), and `true` exactly when the probe call completes. -/
theorem validateApiKey_boolean_probe (t : Transport) (apiKey : String) :
    (∀ e,
      t.chatCompletions
          (dsChatRequest apiKey "deepseek-chat" "You are a test assistant."
            "Say \"OK\" if you can hear me." false) = .error e →
      AIProviderService.validateApiKey t .deepseek apiKey = false) ∧
    (∀ resp,
      t.chatCompletions
          (dsChatRequest apiKey "deepseek-chat" "You are a test assistant."
            "Say \"OK\" if you can hear me." false) = .ok resp →
      AIProviderService.validateApiKey t .deepseek apiKey = httpOk resp.status) ∧
    (∀ e,
      t.generateContent
          { apiKey := apiKey, model := "gemini-2.0-flash", contents := "Say \"OK\""
            systemInstruction := none, structured := false } = .error e →
      AIProviderService.validateApiKey t .gemini apiKey = false) ∧
    (∀ txt,
      t.generateContent
          { apiKey := apiKey, model := "gemini-2.0-flash", contents := "Say \"OK\""
            systemInstruction := none, structured := false } = .ok txt →
      AIProviderService.validateApiKey t .gemini apiKey = true) := by
  refine ⟨?_, ?_, ?_, ?_⟩
  · intro e h
    simp [AIProviderService.validateApiKey, DeepSeekAdapter.chat, h, deepSeekChatResult]
  · intro resp h
    cases hs : httpOk resp.status <;>
      simp [AIProviderService.validateApiKey, DeepSeekAdapter.chat, h, deepSeekChatResult, hs]
  · intro e h
    simp [AIProviderService.validateApiKey, h]
  · intro txt h
    simp [AIProviderService.validateApiKey, h]

/-- Witness for C4: a thrown network failure yields `false` for both
providers; a 2xx completion without content yields `true`. -/
theorem validateApiKey_boolean_probe_witness :
    AIProviderService.validateApiKey failTransport .deepseek "any-key" = false ∧
    AIProviderService.validateApiKey failTransport .gemini "any-key" = false ∧
    AIProviderService.validateApiKey noContentTransport .deepseek "any-key" = httpOk 200 ∧
    AIProviderService.validateApiKey noContentTransport .gemini "any-key" = true :=
  ⟨(validateApiKey_boolean_probe failTransport "any-key").1 "network unreachable" rfl,
    (validateApiKey_boolean_probe failTransport "any-key").2.2.1 "network unreachable" rfl,
    (validateApiKey_boolean_probe noContentTransport "any-key").2.1
      { status := 200, errorMessage := none, content := none } rfl,
    (validateApiKey_boolean_probe noContentTransport "any-key").2.2.2 none rfl⟩

/-- Settings as persisted by a version in which the stored Gemini config
has only an `apiKey` field. -/
def legacyStored : StoredSettings :=
  { activeProvider := none
    providers :=
      some { gemini := some { type := none, apiKey := some "legacy-key", model := none, enabled := none }
             deepseek := none }
    language := none
    autoAnalyze := none }

/-- C7 counterexample: a stored value with a partial per-provider config
loads into settings whose `providers.gemini.enabled` (and `model` and
`type`) are undefined — the overlay is not field-by-field inside a
per-provider config. -/
theorem loadSettings_partial_provider_stays_partial :
    ((StorageService.loadSettings (some legacyStored)).gemini).enabled = none ∧
    ((StorageService.loadSettings (some legacyStored)).gemini).allDefinedB = false :=
  ⟨rfl, rfl⟩

/-- C7 (amended): `loadSettings` overlays stored values onto the defaults
at the top level and at the provider-map level: every top-level field and
both provider entries are always defined, a provider entry absent from
storage is replaced by the fully-defined default config, but a provider
entry present in storage is taken wholesale, so fields missing inside it
stay undefined. -/
theorem loadSettings_two_level_merge (p : StoredSettings) :
    (StorageService.loadSettings (some p)).activeProvider =
      p.activeProvider.getD DEFAULT_SETTINGS.activeProvider ∧
    (StorageService.loadSettings (some p)).language =
      p.language.getD DEFAULT_SETTINGS.language ∧
    (StorageService.loadSettings (some p)).autoAnalyze =
      p.autoAnalyze.getD DEFAULT_SETTINGS.autoAnalyze ∧
    ((p.providers.getD { gemini := none, deepseek := none }).gemini = none →
      (StorageService.loadSettings (some p)).gemini =
        toStoredConfig DEFAULT_SETTINGS.providers.gemini ∧
      ((StorageService.loadSettings (some p)).gemini).allDefinedB = true) ∧
    (∀ g, (p.providers.getD { gemini := none, deepseek := none }).gemini = some g →
      (StorageService.loadSettings (some p)).gemini = g) ∧
    ((p.providers.getD { gemini := none, deepseek := none }).deepseek = none →
      (StorageService.loadSettings (some p)).deepseek =
        toStoredConfig DEFAULT_SETTINGS.providers.deepseek ∧
      ((StorageService.loadSettings (some p)).deepseek).allDefinedB = true) ∧
    (∀ d, (p.providers.getD { gemini := none, deepseek := none }).deepseek = some d →
      (StorageService.loadSettings (some p)).deepseek = d) ∧
    StorageService.loadSettings none =
      StorageService.loadSettings
        (some { activeProvider := none, providers := none, language := none, autoAnalyze := none }) := by
  refine ⟨rfl, rfl, rfl, ?_, ?_, ?_, ?_, rfl⟩
  · intro hg
    constructor
    · simp [StorageService.loadSettings, hg]
    · simp [StorageService.loadSettings, hg, toStoredConfig, StoredProviderConfig.allDefinedB]
  · intro g hg
    simp [StorageService.loadSettings, hg]
  · intro hd
    constructor
    · simp [StorageService.loadSettings, hd]
    · simp [StorageService.loadSettings, hd, toStoredConfig, StoredProviderConfig.allDefinedB]
  · intro d hd
    simp [StorageService.loadSettings, hd]

/-- Witness for C7 (amended) at the legacy stored value. -/
theorem loadSettings_two_level_merge_witness :
    (StorageService.loadSettings (some legacyStored)).activeProvider =
      legacyStored.activeProvider.getD DEFAULT_SETTINGS.activeProvider ∧
    (StorageService.loadSettings (some legacyStored)).gemini =
      { type := none, apiKey := some "legacy-key", model := none, enabled := none } ∧
    (StorageService.loadSettings (some legacyStored)).deepseek =
      toStoredConfig DEFAULT_SETTINGS.providers.deepseek ∧
    ((StorageService.loadSettings (some legacyStored)).deepseek).allDefinedB = true :=
  ⟨(loadSettings_two_level_merge legacyStored).1,
    (loadSettings_two_level_merge legacyStored).2.2.2.2.1
      { type := none, apiKey := some "legacy-key", model := none, enabled := none } rfl,
    (loadSettings_two_level_merge legacyStored).2.2.2.2.2.1 rfl⟩

/-- The adapter construction the service performs on each call, as a
function of the supplied settings alone. -/
inductive AdapterChoice where
  | deepseekAdapter (apiKey model : String)
  | geminiAdapter (apiKey model : String)
deriving DecidableEq

/-- Which adapter (with which constructor arguments) a call with the
given settings constructs. -/
def AIProviderService.adapterFor (settings : AppSettings) : AdapterChoice :=
  let providerConfig := settings.providers.get settings.activeProvider
  match settings.activeProvider with
  | .deepseek => .deepseekAdapter providerConfig.apiKey providerConfig.model
  | .gemini => .geminiAdapter providerConfig.apiKey providerConfig.model

/-- State-passing form of `analyzeEntry`: the source body contains no
assignment to `settings` or to any field of it, so the settings value
after the call is the one passed in. -/
def AIProviderService.analyzeEntryS (t : Transport) (parse : String → Except String AnalysisResult)
    (text : String) (settings : AppSettings) :
    (Except String AnalysisResult × Nat) × AppSettings :=
  (AIProviderService.analyzeEntry t parse text settings, settings)

/-- State-passing form of `generateReport`: likewise free of any write to
the settings. -/
def AIProviderService.generateReportS (t : Transport) (entries : List Entry) (rt : ReportType)
    (settings : AppSettings) : (Except String String × Nat) × AppSettings :=
  (AIProviderService.generateReport t entries rt settings, settings)

/-- C9: every service operation leaves the settings it was passed
unchanged, and when the precondition checks pass the call runs exactly
the adapter recomputed from the supplied settings — the service keeps no
state of its own between calls. -/
theorem service_settings_frame (t : Transport) (parse : String → Except String AnalysisResult)
    (text : String) (entries : List Entry) (rt : ReportType) (settings : AppSettings)
    (hk : (settings.providers.get settings.activeProvider).apiKey ≠ "")
    (he : (settings.providers.get settings.activeProvider).enabled = true) :
    (AIProviderService.analyzeEntryS t parse text settings).2 = settings ∧
    (AIProviderService.generateReportS t entries rt settings).2 = settings ∧
    AIProviderService.analyzeEntry t parse text settings =
      (match AIProviderService.adapterFor settings with
       | .deepseekAdapter k m => DeepSeekAdapter.analyzeEntry t parse k m text
       | .geminiAdapter k m => GeminiAdapter.analyzeEntry t parse k m text) ∧
    AIProviderService.generateReport t entries rt settings =
      (match AIProviderService.adapterFor settings with
       | .deepseekAdapter k m => DeepSeekAdapter.generateReport t k m entries rt
       | .geminiAdapter k m => GeminiAdapter.generateReport t k m entries rt) := by
  refine ⟨rfl, rfl, ?_, ?_⟩ <;>
  · rcases settings with ⟨ap, provs, lang, aa⟩
    cases ap <;>
      simp_all [AIProviderService.analyzeEntry, AIProviderService.generateReport,
        AIProviderService.adapterFor, ProviderMap.get]

/-- Witness for C9 at concrete enabled DeepSeek settings. -/
theorem service_settings_frame_witness :
    (AIProviderService.analyzeEntryS failTransport parseStub "hi" okKeySettings).2 =
      okKeySettings ∧
    (AIProviderService.generateReportS failTransport [sampleEntry] .yearly okKeySettings).2 =
      okKeySettings ∧
    AIProviderService.analyzeEntry failTransport parseStub "hi" okKeySettings =
      (match AIProviderService.adapterFor okKeySettings with
       | .deepseekAdapter k m => DeepSeekAdapter.analyzeEntry failTransport parseStub k m "hi"
       | .geminiAdapter k m => GeminiAdapter.analyzeEntry failTransport parseStub k m "hi") ∧
    AIProviderService.generateReport failTransport [sampleEntry] .yearly okKeySettings =
      (match AIProviderService.adapterFor okKeySettings with
       | .deepseekAdapter k m =>
         DeepSeekAdapter.generateReport failTransport k m [sampleEntry] .yearly
       | .geminiAdapter k m =>
         GeminiAdapter.generateReport failTransport k m [sampleEntry] .yearly) :=
  service_settings_frame failTransport parseStub "hi" [sampleEntry] .yearly okKeySettings
    (by decide) (by decide)

end SmallLog
